import Mathlib

/-!
# Verification of `hid_health_checker.py`

A shallow embedding of the per-host monitoring logic of the HID controller
health checker, together with theorems settling the specification's claims.

The script keeps, for each configured host, a mutable record
`{"online": None|bool, "changed": datetime, "alerted": bool}` and, every
cycle, pings the host, updates the record, appends history rows, and sends
alert / recovery emails.

A detail of the source that matters for the model: `changed` is written
with `datetime.datetime.utcnow()` (a *naive* datetime) on the first
observation (line 218), but with `datetime.datetime.now(datetime.UTC)`
(a timezone-*aware* datetime) on a state change (line 223) and at record
creation (line 192). Line 238 computes
`datetime.datetime.utcnow() - s["changed"]`; in Python, subtracting an
aware datetime from a naive one raises `TypeError`. We therefore model a
timestamp as a value tagged naive or aware, and the subtraction at line 238
as crashing when `changed` is aware.
-/

/-- A Python datetime reduced to its UTC instant (in whole seconds) plus
whether the object is timezone-aware. Mixed-flavor subtraction raises. -/
inductive PyTime where
  | naive (t : Nat)
  | aware (t : Nat)
deriving DecidableEq

/-- Whether the timestamp is timezone-aware. -/
def PyTime.isAware : PyTime → Bool
  | naive _ => false
  | aware _ => true

/-- The per-host record `status[ip]` (line 192): `online` is `None` before
the first probe, then a boolean; `changed` is the last-transition time;
`alerted` records whether an alert email was delivered for the current
outage. -/
structure Record where
  online : Option Bool
  changed : PyTime
  alerted : Bool
deriving DecidableEq

/-- The record created at startup (line 192): `online = None`,
`changed = datetime.datetime.now(datetime.UTC)` (aware), `alerted = False`. -/
def initRecord (now0 : Nat) : Record :=
  { online := none, changed := PyTime.aware now0, alerted := false }

/-- The per-cycle inputs for one host: the ping result, the clock value read
in the transition branch (lines 218/223), the clock value read at alert
evaluation (line 238), and whether `send_email` would succeed this cycle. -/
structure CycleIn where
  online : Bool
  nowT : Nat
  nowE : Nat
  deliver : Bool
deriving DecidableEq

/-- Observable side effects of one per-host step. -/
inductive Event where
  /-- `logging.warning("%s changed state to %s", ...)` (line 226). -/
  | warn
  /-- `log_status_change` inside the state-change branch (line 228). -/
  | historyT
  /-- the unconditional `log_status_change` run every cycle (line 234). -/
  | history
  /-- an alert email attempt (lines 244-249); the flag records delivery. -/
  | raiseAlert (delivered : Bool)
  /-- a recovery email attempt (lines 255-259); the flag records delivery. -/
  | clearAlert (delivered : Bool)
  /-- `logging.exception` in the outer `except Exception` handler (line 266). -/
  | logUnhandled
deriving DecidableEq

/-- The transition phase of a per-host step (lines 215-234): first
observation sets `online` and a naive `changed`; a state flip sets `online`,
an aware `changed`, clears `alerted`, and logs/records the transition; in
every case the unconditional history append of line 234 runs. Returns the
updated record and the emitted events. -/
def observe (r : Record) (c : CycleIn) : Record × List Event :=
  if r.online = none then
    ({ r with online := some c.online, changed := PyTime.naive c.nowT },
      [Event.history])
  else if r.online ≠ some c.online then
    ({ r with online := some c.online, changed := PyTime.aware c.nowT, alerted := false },
      [Event.warn, Event.historyT, Event.history])
  else
    (r, [Event.history])

/-- Result of the alert phase (and of a whole per-host step): the record
left in `status[ip]`, the events emitted, and whether the step raised an
uncaught exception (the naive-minus-aware `TypeError` of line 238). -/
structure StepOut where
  record : Record
  events : List Event
  crash : Bool
deriving DecidableEq

/-- The alert phase of a per-host step (lines 236-260), applied to the
record *after* the transition phase. Offline branch: line 238 computes
`utcnow() - changed`, which raises `TypeError` when `changed` is aware;
otherwise, when the elapsed seconds reach the threshold and no alert was
delivered yet, an alert email is attempted and `alerted` is set only on
success. Online branch: when `alerted` is set, a recovery email is
attempted and `alerted` is cleared whether or not delivery succeeds. -/
def evaluate (th : Int) (r : Record) (c : CycleIn) : StepOut :=
  if c.online = false then
    match r.changed with
    | PyTime.aware _ => ⟨r, [], true⟩
    | PyTime.naive t0 =>
      if (c.nowE : Int) - (t0 : Int) ≥ th ∧ r.alerted = false then
        if c.deliver then
          ⟨{ r with alerted := true }, [Event.raiseAlert true], false⟩
        else
          ⟨r, [Event.raiseAlert false], false⟩
      else
        ⟨r, [], false⟩
  else
    if r.alerted then
      ⟨{ r with alerted := false }, [Event.clearAlert c.deliver], false⟩
    else
      ⟨r, [], false⟩

/-- One full per-host loop body (lines 211-260): transition phase followed
by alert phase. -/
def hostStep (th : Int) (r : Record) (c : CycleIn) : StepOut :=
  let o := observe r c
  let e := evaluate th o.1 c
  ⟨e.record, o.2 ++ e.events, e.crash⟩

/-- Outcome of running the monitor loop over a list of cycles for one host:
final record, the per-cycle event lists of the cycles that actually ran,
whether an uncaught exception reached the outer handler, and how many
cycles ran. -/
structure RunOut where
  record : Record
  trace : List (List Event)
  crashed : Bool
  cyclesDone : Nat
deriving DecidableEq

/-- The `while True` loop (lines 210-262) with the outer exception handler
(lines 265-267), specialised to one host: cycles run in order; an uncaught
exception in a cycle is caught by the outer handler, which logs it and
calls `sys.exit(2)` — no later cycle runs. -/
def runCycles (th : Int) (r : Record) : List CycleIn → RunOut
  | [] => ⟨r, [], false, 0⟩
  | c :: cs =>
    let o := hostStep th r c
    if o.crash then
      ⟨o.record, [o.events ++ [Event.logUnhandled]], true, 1⟩
    else
      let rest := runCycles th o.record cs
      ⟨rest.record, o.events :: rest.trace, rest.crashed, rest.cyclesDone + 1⟩

/-- `sys.exit(2)` on an unhandled exception (line 267); a run that has not
crashed has not exited. -/
def RunOut.exitCode (o : RunOut) : Option Nat :=
  if o.crashed then some 2 else none

/-- All events of a run, in order. -/
def RunOut.allEvents (o : RunOut) : List Event :=
  o.trace.foldr (· ++ ·) []

/-- The SMTP settings read from the environment (`get_email_cfg`, lines
59-67): each key may be unset. -/
structure EmailEnv where
  EMAIL_HOST : Option String
  EMAIL_PORT : Option String
  EMAIL_USER : Option String
  EMAIL_PASS : Option String
  EMAIL_TO : Option String
deriving DecidableEq

/-- The names of the unset keys, in the declaration order of line 61. -/
def missingKeys (e : EmailEnv) : List String :=
  (if e.EMAIL_HOST = none then ["EMAIL_HOST"] else []) ++
  (if e.EMAIL_PORT = none then ["EMAIL_PORT"] else []) ++
  (if e.EMAIL_USER = none then ["EMAIL_USER"] else []) ++
  (if e.EMAIL_PASS = none then ["EMAIL_PASS"] else []) ++
  (if e.EMAIL_TO = none then ["EMAIL_TO"] else [])

/-- The validated SMTP configuration (the port is converted with `int(...)`
at line 66 only after the presence check; we keep it as the raw string, the
claims only concern presence). -/
structure EmailCfg where
  EMAIL_HOST : String
  EMAIL_PORT : String
  EMAIL_USER : String
  EMAIL_PASS : String
  EMAIL_TO : String
deriving DecidableEq

/-- `get_email_cfg` (lines 59-67): if any required key is unset
(`None in cfg.values()`), raise `EnvironmentError` naming the missing keys;
otherwise return the configuration. -/
def get_email_cfg (e : EmailEnv) : Except (List String) EmailCfg :=
  if e.EMAIL_HOST = none ∨ e.EMAIL_PORT = none ∨ e.EMAIL_USER = none ∨
      e.EMAIL_PASS = none ∨ e.EMAIL_TO = none then
    Except.error (missingKeys e)
  else
    Except.ok ⟨e.EMAIL_HOST.getD "", e.EMAIL_PORT.getD "", e.EMAIL_USER.getD "",
      e.EMAIL_PASS.getD "", e.EMAIL_TO.getD ""⟩

/-- How startup can abort before the loop: empty host list (lines 185-187,
`sys.exit(1)`), or the uncaught `EnvironmentError` from `get_email_cfg`
(line 189; CPython exits with status 1 on an uncaught exception). -/
inductive StartupAbort where
  | noIps
  | envError (missing : List String)
deriving DecidableEq

/-- The process exit status of each startup abort. -/
def StartupAbort.exitStatus : StartupAbort → Nat
  | noIps => 1
  | envError _ => 1

/-- The startup sequence of `main` before the loop (lines 184-189): load
the host list, exit if it is empty, then read the email configuration
(whose failure is an uncaught exception). -/
def mainStartup (ips : List String) (e : EmailEnv) :
    Except StartupAbort EmailCfg :=
  if ips = [] then
    Except.error StartupAbort.noIps
  else
    match get_email_cfg e with
    | Except.error m => Except.error (StartupAbort.envError m)
    | Except.ok cfg => Except.ok cfg

/-- `main` end to end, for a single-host configuration: the loop runs only
when startup succeeded. -/
def runMain (ips : List String) (e : EmailEnv) (th : Int) (r : Record)
    (cs : List CycleIn) : Except StartupAbort RunOut :=
  match mainStartup ips e with
  | Except.error a => Except.error a
  | Except.ok _ => Except.ok (runCycles th r cs)

/-- Number of ping probes issued by a run of `main` (one per cycle that
ran, for the single-host configuration); a startup abort issues none. -/
def probeCount : Except StartupAbort RunOut → Nat
  | Except.error _ => 0
  | Except.ok o => o.cyclesDone

/-- The record invariant of the spec: `alerted` is true only while the host
is offline. -/
def Record.inv (r : Record) : Prop := r.alerted = true → r.online = some false

instance (r : Record) : Decidable r.inv := by
  unfold Record.inv; infer_instance

/-! ## Helper lemmas -/

/-- After the transition phase the stored state always equals the probe
result of the cycle. -/
lemma observe_online (r : Record) (c : CycleIn) :
    (observe r c).1.online = some c.online := by
  rcases r with ⟨o, ch, al⟩
  rcases o with _ | b
  · simp [observe]
  · by_cases hb : b = c.online <;> simp [observe, hb]

/-- The alert phase never touches `changed`. -/
lemma evaluate_changed (th : Int) (x : Record) (c : CycleIn) :
    (evaluate th x c).record.changed = x.changed := by
  rcases x with ⟨o, ch, al⟩
  cases ch <;> simp [evaluate] <;> split_ifs <;> rfl

/-- The alert phase never touches `online`. -/
lemma evaluate_online (th : Int) (x : Record) (c : CycleIn) :
    (evaluate th x c).record.online = x.online := by
  rcases x with ⟨o, ch, al⟩
  cases ch <;> simp [evaluate] <;> split_ifs <;> rfl

/-- The record of a full step is the record of the alert phase applied to
the record of the transition phase. -/
lemma hostStep_record (th : Int) (r : Record) (c : CycleIn) :
    (hostStep th r c).record = (evaluate th (observe r c).1 c).record := rfl

/-- The events of a full step are the transition-phase events followed by
the alert-phase events. -/
lemma hostStep_events (th : Int) (r : Record) (c : CycleIn) :
    (hostStep th r c).events = (observe r c).2 ++ (evaluate th (observe r c).1 c).events := rfl

/-- The transition phase preserves the alert invariant. -/
lemma observe_inv (r : Record) (c : CycleIn) (h : r.inv) : (observe r c).1.inv := by
  rcases r with ⟨o, ch, al⟩
  rcases o with _ | b
  · intro halt
    have : (none : Option Bool) = some false := h halt
    simp at this
  · by_cases hb : b = c.online
    · simpa [observe, hb] using h
    · intro halt
      simp [observe, hb] at halt

/-- The alert phase preserves the alert invariant, given that the stored
state agrees with the probe result (which `observe_online` guarantees). -/
lemma evaluate_inv (th : Int) (x : Record) (c : CycleIn)
    (hx : x.online = some c.online) (h : x.inv) : (evaluate th x c).record.inv := by
  rcases x with ⟨o, ch, al⟩
  simp only at hx
  subst hx
  cases hc : c.online <;> cases ch <;> cases al <;>
    simp_all [evaluate, Record.inv] <;> split_ifs <;> simp_all

/-! ## Claim theorems -/

/-- C3: after every per-host step of the monitor loop, `alerted` is true
only when the record's state is Offline. -/
theorem alerted_only_while_offline (th : Int) (r : Record) (c : CycleIn)
    (h : r.inv) : (hostStep th r c).record.inv := by
  rw [hostStep_record]
  exact evaluate_inv th _ c (observe_online r c) (observe_inv r c h)

/-- C3 witness: the invariant is preserved on a concrete step. -/
theorem alerted_only_while_offline_witness :
    (Record.inv { online := some false, changed := PyTime.naive 0, alerted := true }) ∧
    (hostStep 300 { online := some false, changed := PyTime.naive 0, alerted := true }
      ⟨true, 30, 30, true⟩).record.inv :=
  ⟨by decide,
    alerted_only_while_offline 300
      { online := some false, changed := PyTime.naive 0, alerted := true }
      ⟨true, 30, 30, true⟩ (by decide)⟩

/-- C6: `lastChangeTime` after a per-host step: set to the (naive) clock on
a first observation, set to the (aware) clock on a state flip, and left
unchanged whenever the probe result equals the current state; it is
therefore mutated only on the four transitions out of a different state. -/
theorem lastChangeTime_updates_only_on_transition (th : Int) (r : Record) (c : CycleIn) :
    (hostStep th r c).record.changed =
      if r.online = none then PyTime.naive c.nowT
      else if r.online = some c.online then r.changed
      else PyTime.aware c.nowT := by
  rw [hostStep_record, evaluate_changed]
  rcases r with ⟨o, ch, al⟩
  rcases o with _ | b
  · simp [observe]
  · by_cases hb : b = c.online <;> simp [observe, hb]

/-- C10: on the first observation (state `Unknown`, i.e. `online = None`,
with `alerted` still false), the transition phase sets the state per the
probe result and `lastChangeTime` to the current (naive) clock, leaves
`alerted` false, emits no transition warning and no transition-specific
history row — only the unconditional per-cycle history append of line 234
runs. -/
theorem firstObservation_not_a_loggable_transition (r : Record) (c : CycleIn)
    (h1 : r.online = none) (h2 : r.alerted = false) :
    (observe r c).1 = Record.mk (some c.online) (PyTime.naive c.nowT) false ∧
    (observe r c).2 = [Event.history] := by
  rcases r with ⟨o, ch, al⟩
  simp only at h1 h2
  subst h1
  subst h2
  simp [observe]

/-- C10 witness: concrete first observation. -/
theorem firstObservation_not_a_loggable_transition_witness :
    ((initRecord 0).online = none) ∧ ((initRecord 0).alerted = false) ∧
    ((observe (initRecord 0) ⟨true, 7, 7, true⟩).1 =
      Record.mk (some true) (PyTime.naive 7) false ∧
     (observe (initRecord 0) ⟨true, 7, 7, true⟩).2 = [Event.history]) :=
  ⟨rfl, rfl,
    firstObservation_not_a_loggable_transition (initRecord 0) ⟨true, 7, 7, true⟩ rfl rfl⟩

/-- C1: at the start of the alert evaluation (whose record always satisfies
`online = some c.online`, by `observe_online`), a recovery (ClearAlert)
email is attempted iff the state is Online and `alerted` is true; and in
that case exactly one recovery email is attempted and `alerted` is reset to
false whether or not delivery succeeds. -/
theorem clearAlert_iff_online_and_alerted (th : Int) (r : Record) (c : CycleIn)
    (hlink : r.online = some c.online) :
    ((Event.clearAlert true ∈ (evaluate th r c).events ∨
      Event.clearAlert false ∈ (evaluate th r c).events) ↔
      (r.online = some true ∧ r.alerted = true)) ∧
    (r.online = some true → r.alerted = true →
      (evaluate th r c).events = [Event.clearAlert c.deliver] ∧
      (evaluate th r c).record.alerted = false) := by
  rcases r with ⟨o, ch, al⟩
  simp only at hlink
  subst hlink
  rcases c with ⟨con, nt, ne, d⟩
  cases con <;> cases al <;> cases d <;> cases ch <;>
    simp_all [evaluate] <;> split_ifs <;> simp_all

/-- C1 witness: a record with state Online and `alerted` set gets exactly
one recovery attempt and the flag cleared, here with delivery failing. -/
theorem clearAlert_iff_online_and_alerted_witness :
    ((Record.mk (some true) (PyTime.naive 0) true).online = some (true : Bool)) ∧
    (((Event.clearAlert true ∈
        (evaluate 300 (Record.mk (some true) (PyTime.naive 0) true) ⟨true, 5, 5, false⟩).events ∨
      Event.clearAlert false ∈
        (evaluate 300 (Record.mk (some true) (PyTime.naive 0) true) ⟨true, 5, 5, false⟩).events) ↔
      ((Record.mk (some true) (PyTime.naive 0) true).online = some true ∧
       (Record.mk (some true) (PyTime.naive 0) true).alerted = true)) ∧
    ((Record.mk (some true) (PyTime.naive 0) true).online = some true →
      (Record.mk (some true) (PyTime.naive 0) true).alerted = true →
      (evaluate 300 (Record.mk (some true) (PyTime.naive 0) true) ⟨true, 5, 5, false⟩).events =
        [Event.clearAlert false] ∧
      (evaluate 300 (Record.mk (some true) (PyTime.naive 0) true) ⟨true, 5, 5, false⟩).record.alerted =
        false)) :=
  ⟨rfl, clearAlert_iff_online_and_alerted 300 (Record.mk (some true) (PyTime.naive 0) true)
    ⟨true, 5, 5, false⟩ rfl⟩

/-- The probe history of C2's failing scenario: online at t=0, offline from
t=30 on, past the default 300 s threshold (spec §8 expects exactly one
RaiseAlert once the outage reaches 300 s). -/
def outageAfterOnline : List CycleIn :=
  [⟨true, 0, 0, true⟩, ⟨false, 30, 30, true⟩, ⟨false, 330, 330, true⟩, ⟨false, 360, 360, true⟩]

/-- C2 (code bug exhibit): for a host that flips Online→Offline, line 223
stores an aware `changed`, so line 238's naive-minus-aware subtraction
raises `TypeError` on the very flip cycle: the run crashes (exit 2) after
cycle 2, and no alert email is ever attempted although the outage lasts
past the threshold. -/
theorem raiseAlert_never_attempted_after_flip :
    (runCycles 300 (initRecord 0) outageAfterOnline).crashed = true ∧
    (runCycles 300 (initRecord 0) outageAfterOnline).cyclesDone = 2 ∧
    (runCycles 300 (initRecord 0) outageAfterOnline).exitCode = some 2 ∧
    (runCycles 300 (initRecord 0) outageAfterOnline).allEvents.count (Event.raiseAlert true) = 0 ∧
    (runCycles 300 (initRecord 0) outageAfterOnline).allEvents.count (Event.raiseAlert false) = 0 := by
  decide

/-- C4 (code bug exhibit): on a cycle where the probe result equals the
current state (no transition), the step still appends one history row (the
unconditional `log_status_change` of line 234); and on a transition cycle
it appends two (lines 228 and 234). The claimed append-iff-transition
contract does not hold. -/
theorem history_row_appended_without_transition :
    (hostStep 300 (Record.mk (some true) (PyTime.naive 0) false)
      ⟨true, 60, 60, true⟩).events.count Event.history = 1 ∧
    ((hostStep 300 (Record.mk (some true) (PyTime.naive 0) false)
        ⟨false, 60, 60, true⟩).events.count Event.history +
      (hostStep 300 (Record.mk (some true) (PyTime.naive 0) false)
        ⟨false, 60, 60, true⟩).events.count Event.historyT) = 2 := by
  decide

/-- A probe history whose second cycle raises the line-238 `TypeError`
while a third cycle is still scheduled. -/
def errorMidRun : List CycleIn :=
  [⟨true, 0, 0, true⟩, ⟨false, 30, 30, true⟩, ⟨true, 60, 60, true⟩]

/-- C5 (counterexample): an unexpected runtime error inside a cycle does
not let the loop continue — with three scheduled cycles and an unhandled
`TypeError` in the second, only two cycles run and the process exits with
status 2. -/
theorem loop_does_not_continue_after_error :
    (runCycles 300 (initRecord 0) errorMidRun).crashed = true ∧
    (runCycles 300 (initRecord 0) errorMidRun).cyclesDone = 2 ∧
    errorMidRun.length = 3 ∧
    (runCycles 300 (initRecord 0) errorMidRun).exitCode = some 2 := by
  decide

/-- C5 (amended): an unexpected runtime error inside a cycle is caught at
the loop boundary and logged, but the process then exits with status 2;
only the cycles up to and including the failing one run. -/
theorem unhandled_error_caught_logged_then_exit (th : Int) (r : Record)
    (cs : List CycleIn) (h : (runCycles th r cs).crashed = true) :
    (runCycles th r cs).exitCode = some 2 ∧
    Event.logUnhandled ∈ (runCycles th r cs).allEvents ∧
    (runCycles th r cs).trace.length = (runCycles th r cs).cyclesDone ∧
    (runCycles th r cs).cyclesDone ≤ cs.length := by
  refine ⟨by simp [RunOut.exitCode, h], ?_, ?_, ?_⟩ <;>
  · induction cs generalizing r with
    | nil => simp [runCycles] at h
    | cons c cs ih =>
      by_cases hc : (hostStep th r c).crash
      · simp_all [runCycles, RunOut.allEvents]
      · have h' : (runCycles th (hostStep th r c).record cs).crashed = true := by
          simp_all [runCycles]
        have := ih (hostStep th r c).record h'
        simp_all [runCycles, RunOut.allEvents]

/-- C5 witness: the amended statement at the concrete failing run. -/
theorem unhandled_error_caught_logged_then_exit_witness :
    (runCycles 300 (initRecord 5) errorMidRun).crashed = true ∧
    ((runCycles 300 (initRecord 5) errorMidRun).exitCode = some 2 ∧
     Event.logUnhandled ∈ (runCycles 300 (initRecord 5) errorMidRun).allEvents ∧
     (runCycles 300 (initRecord 5) errorMidRun).trace.length =
       (runCycles 300 (initRecord 5) errorMidRun).cyclesDone ∧
     (runCycles 300 (initRecord 5) errorMidRun).cyclesDone ≤ errorMidRun.length) :=
  ⟨by decide, unhandled_error_caught_logged_then_exit 300 (initRecord 5) errorMidRun (by decide)⟩

/-- C7: when the raise conditions hold (Offline, not yet alerted, naive
`changed` at `t0`, elapsed time at or past the threshold) and delivery
fails, the step attempts exactly one alert email, leaves the record — in
particular `alerted` — unchanged, and a later cycle in which the
conditions still hold attempts the alert again. -/
theorem failed_raise_keeps_alerted_false_and_retries (th : Int) (r : Record)
    (c c2 : CycleIn) (t0 : Nat)
    (hon : r.online = some false) (hch : r.changed = PyTime.naive t0)
    (hal : r.alerted = false)
    (hc1 : c.online = false) (hd : c.deliver = false)
    (hth : (c.nowE : Int) - (t0 : Int) ≥ th)
    (hc2 : c2.online = false)
    (hth2 : (c2.nowE : Int) - (t0 : Int) ≥ th) :
    (hostStep th r c).events = [Event.history, Event.raiseAlert false] ∧
    (hostStep th r c).record.alerted = false ∧
    (hostStep th r c).record = r ∧
    Event.raiseAlert c2.deliver ∈ (hostStep th (hostStep th r c).record c2).events := by
  rcases r with ⟨o, ch, al⟩
  simp only at hon hch hal
  subst hon; subst hch; subst hal
  have hstep : hostStep th (Record.mk (some false) (PyTime.naive t0) false) c =
      StepOut.mk (Record.mk (some false) (PyTime.naive t0) false)
        [Event.history, Event.raiseAlert false] false := by
    simp [hostStep, observe, evaluate, hc1, hd, hth]
  refine ⟨by rw [hstep], by rw [hstep], by rw [hstep], ?_⟩
  rw [hstep]
  rcases hdel : c2.deliver <;>
    simp [hostStep, observe, evaluate, hc2, hth2, hdel]

/-- C7 witness: a failed alert attempt at t=300 is retried (and succeeds)
at t=330. -/
theorem failed_raise_keeps_alerted_false_and_retries_witness :
    ((Record.mk (some false) (PyTime.naive 0) false).online = some (false : Bool)) ∧
    ((hostStep 300 (Record.mk (some false) (PyTime.naive 0) false)
        ⟨false, 300, 300, false⟩).events = [Event.history, Event.raiseAlert false] ∧
     (hostStep 300 (Record.mk (some false) (PyTime.naive 0) false)
        ⟨false, 300, 300, false⟩).record.alerted = false ∧
     (hostStep 300 (Record.mk (some false) (PyTime.naive 0) false)
        ⟨false, 300, 300, false⟩).record = Record.mk (some false) (PyTime.naive 0) false ∧
     Event.raiseAlert (CycleIn.mk false 330 330 true).deliver ∈
       (hostStep 300 (hostStep 300 (Record.mk (some false) (PyTime.naive 0) false)
          ⟨false, 300, 300, false⟩).record (CycleIn.mk false 330 330 true)).events) :=
  ⟨rfl, failed_raise_keeps_alerted_false_and_retries 300
    (Record.mk (some false) (PyTime.naive 0) false)
    ⟨false, 300, 300, false⟩ (CycleIn.mk false 330 330 true) 0
    rfl rfl rfl rfl rfl (by decide) rfl (by decide)⟩

/-- C9: if the configured host list is empty or any required email
environment variable is missing, `main` aborts before the loop with a
non-zero exit status (`sys.exit(1)` at line 187, or the uncaught
`EnvironmentError` of line 65, which makes the interpreter exit with
status 1) and no probing cycle ever runs. -/
theorem startup_failure_aborts_before_loop (ips : List String) (e : EmailEnv)
    (th : Int) (r : Record) (cs : List CycleIn)
    (h : ips = [] ∨ e.EMAIL_HOST = none ∨ e.EMAIL_PORT = none ∨
      e.EMAIL_USER = none ∨ e.EMAIL_PASS = none ∨ e.EMAIL_TO = none) :
    (∃ a : StartupAbort, runMain ips e th r cs = Except.error a ∧ a.exitStatus ≠ 0) ∧
    probeCount (runMain ips e th r cs) = 0 := by
  have hmain : ∃ a : StartupAbort,
      mainStartup ips e = Except.error a ∧ a.exitStatus ≠ 0 := by
    by_cases hip : ips = []
    · exact ⟨StartupAbort.noIps, by simp [mainStartup, hip], by decide⟩
    · have henv := h.resolve_left hip
      refine ⟨StartupAbort.envError (missingKeys e), ?_, by simp [StartupAbort.exitStatus]⟩
      rw [mainStartup, if_neg hip, get_email_cfg, if_pos henv]
  obtain ⟨a, ha, hexit⟩ := hmain
  refine ⟨⟨a, ?_, hexit⟩, ?_⟩
  · rw [runMain, ha]
  · rw [probeCount.eq_def]
    rw [runMain, ha]

/-- C9 witness: an empty host list aborts with a non-zero status and zero
probes. -/
theorem startup_failure_aborts_before_loop_witness :
    (([] : List String) = [] ∨
      (EmailEnv.mk (some "h") (some "465") (some "u") (some "p") (some "t")).EMAIL_HOST = none ∨
      (EmailEnv.mk (some "h") (some "465") (some "u") (some "p") (some "t")).EMAIL_PORT = none ∨
      (EmailEnv.mk (some "h") (some "465") (some "u") (some "p") (some "t")).EMAIL_USER = none ∨
      (EmailEnv.mk (some "h") (some "465") (some "u") (some "p") (some "t")).EMAIL_PASS = none ∨
      (EmailEnv.mk (some "h") (some "465") (some "u") (some "p") (some "t")).EMAIL_TO = none) ∧
    ((∃ a : StartupAbort,
        runMain [] (EmailEnv.mk (some "h") (some "465") (some "u") (some "p") (some "t"))
          300 (initRecord 0) [] = Except.error a ∧ a.exitStatus ≠ 0) ∧
      probeCount (runMain [] (EmailEnv.mk (some "h") (some "465") (some "u") (some "p") (some "t"))
        300 (initRecord 0) []) = 0) :=
  ⟨Or.inl rfl,
    startup_failure_aborts_before_loop []
      (EmailEnv.mk (some "h") (some "465") (some "u") (some "p") (some "t"))
      300 (initRecord 0) [] (Or.inl rfl)⟩
